import Mathlib

/-!
Shallow embedding of the field-classification and typestate-derivation core of
the `bon` builder-macro repository, together with proofs settling the frozen
claims about it.

Embedded source files:
- `bon-macros/src/builder/builder_gen/field.rs` (`FieldOrigin`, `Field`,
  `FieldParams`, `StrictBool`, `parse_optional_expression`, `Field::new`,
  `Field::validate`, `Field::as_optional`, `Field::unset_state_type`,
  `Field::set_state_type_param`, `Field::set_state_type`);
- `bon-macros/src/builder/params.rs` (`BuilderParams`, `ItemParams`).

Library infrastructure the source leans on (`syn` types and spans, the prox
type predicates, darling's generic attribute decoding, and the doc
self-reference check living in the enclosing module) is modelled explicitly;
each such definition carries a doc comment saying what it stands for.
-/

namespace Bon

/-- Source positions. The real code carries opaque `proc_macro2::Span` handles;
only identity of positions matters to the claims, so a span is a number. -/
abbrev Span := Nat

/-- Model of `darling::util::SpannedValue<T>`: a value paired with the span it
was parsed from. -/
structure SpannedValue (α : Type) where
  value : α
  span : Span
deriving Repr, DecidableEq

/-- Model of `darling::util::Flag`: records only that the word was present,
and where. -/
structure Flag where
  span : Span
deriving Repr, DecidableEq

/-- Modelled from the spec: the fragment of the `syn::Type` grammar the core
inspects. The glossary distinguishes the optional-wrapper type (`Option<T>`),
the two-valued boolean type (`bool`), and everything else; the prox helpers
`is_option` / `is_bool` / `option_type_param` (declared outside this
repository's sources) classify a type into exactly these three shapes. -/
inductive Ty where
  | bool : Ty
  | option (inner : Ty) : Ty
  | other (name : String) : Ty
deriving Repr, DecidableEq

/-- Modelled from the spec: prox's `Type::is_option` — whether the declared
type is the optional-wrapper type. -/
def Ty.is_option : Ty → Bool
  | .option _ => true
  | _ => false

/-- Modelled from the spec: prox's `Type::is_bool` — whether the declared type
is the two-valued boolean type. -/
def Ty.is_bool : Ty → Bool
  | .bool => true
  | _ => false

/-- Modelled from the spec: prox's `Type::option_type_param` — the inner type
parameter of an optional-wrapper type, when the type is one. -/
def Ty.option_type_param : Ty → Option Ty
  | .option inner => some inner
  | _ => none

/-- Model of `syn::Expr`: the claims only need to distinguish boolean literals,
plain identifiers and arbitrary other expressions (kept as text). -/
inductive Expr where
  | litBool (b : Bool) : Expr
  | ident (name : String) : Expr
  | otherExpr (text : String) : Expr
deriving Repr, DecidableEq

/-- An item of a structured attribute list such as `(name = ..., vis = ...)`:
either a recognised `name = <ident>` / `vis = <visibility>` entry or an entry
with an unrecognised key. Visibilities are kept as text. -/
inductive MetaItem where
  | nameItem (id : String) : MetaItem
  | visItem (v : String) : MetaItem
  | otherItem (key : String) : MetaItem
deriving Repr, DecidableEq

/-- Model of `syn::Meta`: a bare path (`key`), a list (`key(...)`), or a
name-value pair (`key = value`). Each carries the span of the whole node; for
a name-value meta the span of the meta and of its name-value node coincide. -/
inductive Meta where
  | path (span : Span) : Meta
  | list (span : Span) (items : List MetaItem) : Meta
  | nameValue (span : Span) (value : Expr) : Meta
deriving Repr, DecidableEq

/-- Model of `prox::Error` / `darling::Error`: a message plus an optional span
anchor. `Error::custom` leaves the span unset; `with_span` / the `bail!` macro
set it. -/
structure Error where
  msg : String
  span : Option Span
deriving Repr, DecidableEq

/-- Model of a doc-comment attribute. The only property of its content the core
consults is whether it contains a link referring back to the enclosing
declaration, so the content is abstracted to that one bit plus a span. -/
structure DocAttr where
  selfRef : Bool
  span : Span
deriving Repr, DecidableEq

/-- `FieldOrigin` from `field.rs`: what syntax the field comes from. -/
inductive FieldOrigin where
  | fnArg : FieldOrigin
  | structField : FieldOrigin
deriving Repr, DecidableEq

/-- The `Display` impl for `FieldOrigin`. -/
def FieldOrigin.display : FieldOrigin → String
  | .fnArg => "function argument"
  | .structField => "struct field"

/-- `StrictBool` from `field.rs`: the primitive that accepts only a bare word
(true) or an explicit `= false`. -/
structure StrictBool where
  value : Bool
deriving Repr, DecidableEq

/-- The message of the error `StrictBool::from_bool` returns for `= true`. -/
def redundantTrueMsg : String :=
  "No need to write `= true`. Just mentioning the attribute is enough " ++
  "to set it to `true`, so remove the `= true` part."

/-- `StrictBool::from_word`: a bare mention means `true`. -/
def StrictBool.from_word : Except Error StrictBool :=
  .ok { value := true }

/-- `StrictBool::from_bool`: `= false` means `false`; `= true` is rejected
with a custom error (its span is set by the default trait impl in the
caller, hence `none` here). -/
def StrictBool.from_bool (value : Bool) : Except Error StrictBool :=
  if !value then
    .ok { value := false }
  else
    .error { msg := redundantTrueMsg, span := none }

/-- Message of darling's `Error::unsupported_format`. -/
def unsupportedFormatMsg (format : String) : String :=
  "unsupported format `" ++ format ++ "`"

/-- Message of darling's `Error::unexpected_type`, raised when a name-value
annotation holds a literal of the wrong kind. -/
def unexpectedTypeMsg : String :=
  "unexpected literal type"

/-- Modelled from the spec: darling's default `FromMeta::from_meta` dispatch
for `StrictBool` (the trait's provided method, library code outside this
repository). A bare path goes to `from_word`, a `= <bool literal>` goes to
`from_bool` with the error span set at the meta, and every other surface form
(list, non-boolean value) is rejected. -/
def StrictBool.from_meta : Meta → Except Error StrictBool
  | .path _ => StrictBool.from_word
  | .list s _ => .error { msg := unsupportedFormatMsg "list", span := some s }
  | .nameValue s (.litBool b) =>
      match StrictBool.from_bool b with
      | .ok v => .ok v
      | .error e => .error { e with span := some s }
  | .nameValue s _ => .error { msg := unexpectedTypeMsg, span := some s }

/-- `parse_optional_expression` from `field.rs`: a bare path yields an absent
expression at the meta's span; a list is an unsupported format anchored at the
meta; a name-value yields the present expression at the name-value's span. -/
def parse_optional_expression (meta : Meta) : Except Error (SpannedValue (Option Expr)) :=
  match meta with
  | .path s => .ok { value := none, span := s }
  | .list s _ => .error { msg := unsupportedFormatMsg "list", span := some s }
  | .nameValue s v => .ok { value := some v, span := s }

/-- `FieldParams` from `field.rs`: the parsed per-member annotation record. -/
structure FieldParams where
  into : Option (SpannedValue StrictBool)
  default : Option (SpannedValue (Option Expr))
  required : Option Flag
deriving Repr, DecidableEq

/-- `Field` from `field.rs`. -/
structure Field where
  origin : FieldOrigin
  ident : String
  docs : List DocAttr
  ty : Ty
  state_assoc_type_ident : String
  params : FieldParams
deriving Repr, DecidableEq

/-- Message of the self-referential-doc diagnostic. -/
def selfReferentialDocMsg : String :=
  "the documentation comment must not reference the declaration itself"

/-- Modelled from the spec: `super::reject_self_references_in_docs` (declared
in the enclosing `builder_gen` module, outside the given sources). Invariant 5
of the spec: documentation fragments must not contain a link that refers back
to the enclosing declaration itself; the first offending fragment is rejected
at its span. -/
def reject_self_references_in_docs (docs : List DocAttr) : Except Error Unit :=
  match docs.find? (fun d => d.selfRef) with
  | some d => .error { msg := selfReferentialDocMsg, span := some d.span }
  | none => .ok ()

/-- Message of the redundant-`default` diagnostic, parameterised by the
offending type name (`"Option"` or `"bool"`). -/
def redundantDefaultMsg (ty : String) : String :=
  "type `" ++ ty ++ "` already implies #[builder(default)] " ++
  "so explicit #[builder(default)] is redundant"

/-- Message of the `required`-on-`Option` diagnostic. -/
def requiredOnOptionMsg : String :=
  "`Option` and #[builder(required)] attributes are mutually exclusive. " ++
  "`Option`s are optional by definition and this can\x27t be changed"

/-- Message of the `required`-on-non-`bool` diagnostic. -/
def requiredNonBoolMsg : String :=
  "#[builder(required)] can only be applied to `bool`. All other " ++
  "types except for `Option<T>` are required by default already"

/-- Message of the `required`/`default` conflict diagnostic. -/
def requiredDefaultConflictMsg : String :=
  "The #[builder(required)] and #[builder(default)] attributes " ++
  "are mutually exclusive"

/-- `Field::validate` from `field.rs`, translated clause for clause: the doc
self-reference check, then the redundant-`default` check, then — when
`required` is present — the `Option` check, the non-`bool` check and the
`default`-conflict check; `prox::bail!` is an early error return with the
given span. -/
def Field.validate (f : Field) : Except Error Unit := do
  reject_self_references_in_docs f.docs
  match f.params.default with
  | some default =>
    let ty : Option String :=
      if f.ty.is_option then some "Option"
      else if f.ty.is_bool then some "bool"
      else none
    match ty with
    | some tyName =>
        Except.error { msg := redundantDefaultMsg tyName, span := some default.span }
    | none => Except.ok ()
  | none => Except.ok ()
  match f.params.required with
  | some required =>
    if f.ty.is_option then
      Except.error { msg := requiredOnOptionMsg, span := some required.span }
    else if !f.ty.is_bool then
      Except.error { msg := requiredNonBoolMsg, span := some required.span }
    else if f.params.default.isSome then
      Except.error { msg := requiredDefaultConflictMsg, span := some required.span }
    else
      Except.ok ()
  | none => Except.ok ()

/-- Modelled from the spec: prox's `to_pascal_case` on identifiers (a pure
string transformation, declared outside the given sources): split on
underscores and capitalise each chunk. -/
def pascalCase (name : String) : String :=
  String.join ((name.splitOn "_").map String.capitalize)

/-- `Field::new` from `field.rs`. In the source the doc attributes are
filtered out of the raw attribute list and `FieldParams` is decoded from it by
darling's derived `FromAttributes` (generic library code); here the extracted
docs and the decoded params are taken directly. The derived state-trait
identifier is computed and the field is validated before being returned, as in
the source. -/
def Field.new (origin : FieldOrigin) (docs : List DocAttr) (params : FieldParams)
    (ident : String) (ty : Ty) : Except Error Field := do
  let me : Field :=
    { origin := origin
      state_assoc_type_ident := pascalCase ident
      ident := ident
      ty := ty
      params := params
      docs := docs }
  me.validate
  pure me

/-- `Field::as_optional` from `field.rs`: the user's `required` override takes
the wheel entirely; otherwise the `Option` type parameter, or — for a `bool`
type or a present `default` — the declared type itself. -/
def Field.as_optional (f : Field) : Option Ty :=
  if f.params.required.isSome then
    none
  else
    f.ty.option_type_param.orElse fun _ =>
      if f.ty.is_bool || f.params.default.isSome then some f.ty else none

/-- The head of a generated marker type: `bon::private::Optional`,
`bon::private::Required` or `bon::private::Set`. -/
inductive Marker where
  | optionalMarker : Marker
  | requiredMarker : Marker
  | setMarker : Marker
deriving Repr, DecidableEq

/-- The shape of the token streams the typestate deriver emits: one marker
head applied to one type argument. -/
structure MarkerTy where
  marker : Marker
  param : Ty
deriving Repr, DecidableEq

/-- `Field::unset_state_type` from `field.rs`:
`bon::private::Optional<#inner_type>` when the field is optional, else
`bon::private::Required<#ty>`. -/
def Field.unset_state_type (f : Field) : MarkerTy :=
  match f.as_optional with
  | some inner_type => { marker := .optionalMarker, param := inner_type }
  | none => { marker := .requiredMarker, param := f.ty }

/-- `Field::set_state_type_param` from `field.rs`: `Option<#ty>` over the
representative type when the field is optional, else the declared type. -/
def Field.set_state_type_param (f : Field) : Ty :=
  match f.as_optional with
  | some ty => .option ty
  | none => f.ty

/-- `Field::set_state_type` from `field.rs`:
`bon::private::Set<#ty>` over `set_state_type_param`. -/
def Field.set_state_type (f : Field) : MarkerTy :=
  { marker := .setMarker, param := f.set_state_type_param }

/-- `BuilderParams` from `params.rs` (identifiers kept as text). -/
structure BuilderParams where
  finish_fn : Option String
  builder_type : Option String
deriving Repr, DecidableEq

/-- `ItemParams` from `params.rs` (identifiers and visibilities as text). -/
structure ItemParams where
  name : Option String
  vis : Option String
deriving Repr, DecidableEq

/-- The local `Full` struct inside `ItemParams::from_meta`. -/
structure ItemParamsFull where
  name : Option String
  vis : Option String
deriving Repr, DecidableEq

/-- Model of `syn::parse2::<syn::Ident>` applied to an expression's tokens:
succeeds exactly on a plain identifier. -/
def parseIdentExpr : Expr → Option String
  | .ident name => some name
  | _ => none

/-- Message of the error raised when the shorthand value is not an
identifier. -/
def expectedIdentMsg : String :=
  "expected identifier"

/-- Message of darling's unknown-field error. -/
def unknownFieldMsg : String :=
  "unknown field"

/-- Message of darling's duplicate-field error. -/
def duplicateFieldMsg : String :=
  "duplicate field"

/-- The `name = <ident>` entries of a structured list. -/
def nameItems (items : List MetaItem) : List String :=
  items.filterMap fun
    | .nameItem id => some id
    | _ => none

/-- The `vis = <visibility>` entries of a structured list. -/
def visItems (items : List MetaItem) : List String :=
  items.filterMap fun
    | .visItem v => some v
    | _ => none

/-- Whether a structured list holds an entry with an unrecognised key. -/
def hasUnknownItem (items : List MetaItem) : Bool :=
  items.any fun
    | .otherItem _ => true
    | _ => false

/-- Modelled from the spec: darling's derived `FromMeta` for the local `Full`
struct (generic "parse recognized keys, reject unrecognized keys, support
default-absent fields" decoding, library code outside this repository). Only
the structured-list form is legal; `name` and `vis` may each independently be
present or absent; unknown and duplicated keys are rejected. -/
def ItemParamsFull.from_meta : Meta → Except Error ItemParamsFull
  | .list s items =>
      if hasUnknownItem items then
        .error { msg := unknownFieldMsg, span := some s }
      else if 2 ≤ (nameItems items).length ∨ 2 ≤ (visItems items).length then
        .error { msg := duplicateFieldMsg, span := some s }
      else
        .ok { name := (nameItems items).head?, vis := (visItems items).head? }
  | .path s => .error { msg := unsupportedFormatMsg "word", span := some s }
  | .nameValue s _ => .error { msg := unsupportedFormatMsg "name-value", span := some s }

/-- `ItemParams::from_meta` from `params.rs`: a name-value meta is the
shorthand — its value is re-parsed as an identifier and becomes the name
override, the visibility override absent; any other shape is handed to the
full structured parser. -/
def ItemParams.from_meta (meta : Meta) : Except Error ItemParams :=
  match meta with
  | .nameValue s v =>
      match parseIdentExpr v with
      | some id => .ok { name := some id, vis := none }
      | none => .error { msg := expectedIdentMsg, span := some s }
  | m =>
      (ItemParamsFull.from_meta m).map fun full =>
        { name := full.name, vis := full.vis }

end Bon

deriving instance DecidableEq for Except

namespace Bon

/-- The first present element of a list of optional check results: the
fail-fast combinator the validation chain follows. -/
def firstSome {α : Type} : List (Option α) → Option α
  | [] => none
  | o :: rest =>
    match o with
    | some a => some a
    | none => firstSome rest

/-- The doc self-reference check of the validation chain, as a standalone
check returning the diagnostic it would raise. -/
def docsCheck (f : Field) : Option Error :=
  match f.docs.find? (fun d => d.selfRef) with
  | some d => some { msg := selfReferentialDocMsg, span := some d.span }
  | none => none

/-- The redundant-`default` check of the validation chain, as a standalone
check. -/
def redundantDefaultCheck (f : Field) : Option Error :=
  match f.params.default with
  | some default =>
      if f.ty.is_option then
        some { msg := redundantDefaultMsg "Option", span := some default.span }
      else if f.ty.is_bool then
        some { msg := redundantDefaultMsg "bool", span := some default.span }
      else none
  | none => none

/-- The `required`-on-optional-wrapper check of the validation chain, as a
standalone check. -/
def requiredOnOptionCheck (f : Field) : Option Error :=
  match f.params.required with
  | some required =>
      if f.ty.is_option then
        some { msg := requiredOnOptionMsg, span := some required.span }
      else none
  | none => none

/-- The `required`-on-non-boolean check of the validation chain (the declared
type is neither boolean nor the optional wrapper), as a standalone check. -/
def requiredNonBoolCheck (f : Field) : Option Error :=
  match f.params.required with
  | some required =>
      if !f.ty.is_option && !f.ty.is_bool then
        some { msg := requiredNonBoolMsg, span := some required.span }
      else none
  | none => none

/-- The `required`/`default` conflict check of the validation chain, as a
standalone check. -/
def requiredDefaultConflictCheck (f : Field) : Option Error :=
  match f.params.required with
  | some required =>
      if f.params.default.isSome then
        some { msg := requiredDefaultConflictMsg, span := some required.span }
      else none
  | none => none

/-- The concrete type `u32`. -/
def tyU32 : Ty := .other "u32"

/-- An annotation record with no annotations at all. -/
def noParams : FieldParams := { into := none, default := none, required := none }

/-- Scenario member `x1: u32`, no annotations. -/
def fieldX1 : Field :=
  { origin := .fnArg, ident := "x1", docs := [], ty := tyU32,
    state_assoc_type_ident := "X1", params := noParams }

/-- Scenario member `x2: Option<u32>`, no annotations. -/
def fieldX2 : Field :=
  { origin := .fnArg, ident := "x2", docs := [], ty := .option tyU32,
    state_assoc_type_ident := "X2", params := noParams }

/-- Scenario member `x3: u32` with `default = 2 + 2` (at span 5). -/
def fieldX3 : Field :=
  { origin := .fnArg, ident := "x3", docs := [], ty := tyU32,
    state_assoc_type_ident := "X3",
    params := { into := none,
                default := some { value := some (.otherExpr "2 + 2"), span := 5 },
                required := none } }

/-- Member `flag: bool` with no annotations. -/
def fieldFlagPlain : Field :=
  { origin := .fnArg, ident := "flag", docs := [], ty := .bool,
    state_assoc_type_ident := "Flag", params := noParams }

/-- Member `flag: bool` with `required` only (at span 3). -/
def fieldReqBool : Field :=
  { origin := .fnArg, ident := "flag", docs := [], ty := .bool,
    state_assoc_type_ident := "Flag",
    params := { into := none, default := none, required := some { span := 3 } } }

/-- Scenario member `flag: bool` with `required` (at span 3) and
`default = true` (at span 7). -/
def fieldFlagReqDefault : Field :=
  { origin := .fnArg, ident := "flag", docs := [], ty := .bool,
    state_assoc_type_ident := "Flag",
    params := { into := none,
                default := some { value := some (.litBool true), span := 7 },
                required := some { span := 3 } } }

/-- Member `n: Option<u32>` with `required` (at span 3) and a bare `default`
(at span 7). -/
def fieldOptReqDefault : Field :=
  { origin := .fnArg, ident := "n", docs := [], ty := .option tyU32,
    state_assoc_type_ident := "N",
    params := { into := none,
                default := some { value := none, span := 7 },
                required := some { span := 3 } } }

/-- Member `n: Option<u32>` with `required` only (at span 3). -/
def fieldOptReq : Field :=
  { origin := .fnArg, ident := "n", docs := [], ty := .option tyU32,
    state_assoc_type_ident := "N",
    params := { into := none, default := none, required := some { span := 3 } } }

/-- Member `s: String` with `required` only (at span 3). -/
def fieldStrReq : Field :=
  { origin := .fnArg, ident := "s", docs := [], ty := .other "String",
    state_assoc_type_ident := "S",
    params := { into := none, default := none, required := some { span := 3 } } }

/-- Scenario member `n: Option<u32>` with a bare `default` (at span 7). -/
def fieldOptDefault : Field :=
  { origin := .fnArg, ident := "n", docs := [], ty := .option tyU32,
    state_assoc_type_ident := "N",
    params := { into := none,
                default := some { value := none, span := 7 },
                required := none } }

/-- Member `b: bool` with a bare `default` (at span 7). -/
def fieldBoolDefault : Field :=
  { origin := .fnArg, ident := "b", docs := [], ty := .bool,
    state_assoc_type_ident := "B",
    params := { into := none,
                default := some { value := none, span := 7 },
                required := none } }

/-- Member `n: Option<u32>` with a bare `default` (at span 7) and a doc
fragment (at span 1) containing a self-referential link. -/
def fieldOptDefaultSelfDoc : Field :=
  { origin := .fnArg, ident := "n",
    docs := [{ selfRef := true, span := 1 }],
    ty := .option tyU32,
    state_assoc_type_ident := "N",
    params := { into := none,
                default := some { value := none, span := 7 },
                required := none } }

/-- C1: `Field::as_optional` classifies a member as follows: when the
`required` flag is present it returns `none` regardless of the declared type;
otherwise, when the declared type is the optional wrapper, it returns the
wrapper's inner type parameter; otherwise, when the declared type is boolean
or a `default` annotation is present, it returns the declared type itself
unmodified; otherwise it returns `none`. -/
theorem as_optional_classification (f : Field) :
    (f.params.required.isSome = true → f.as_optional = none)
    ∧ (f.params.required = none →
        ∀ inner, f.ty.option_type_param = some inner → f.as_optional = some inner)
    ∧ (f.params.required = none → f.ty.option_type_param = none →
        (f.ty.is_bool = true ∨ f.params.default.isSome = true) → f.as_optional = some f.ty)
    ∧ (f.params.required = none → f.ty.option_type_param = none → f.ty.is_bool = false →
        f.params.default = none → f.as_optional = none) := by
  refine ⟨fun h => ?_, fun h inner hty => ?_, fun h hty hb => ?_, fun h hty hb hd => ?_⟩
  · simp [Field.as_optional, h]
  · simp [Field.as_optional, h, hty, Option.orElse]
  · rcases hb with hb | hb <;> simp [Field.as_optional, h, hty, hb, Option.orElse]
  · simp [Field.as_optional, h, hty, hb, hd, Option.orElse]

/-- Witness for C1: the four classification rules evaluated at the concrete
members `flag: bool required`, `x2: Option<u32>`, `x3: u32 default = 2 + 2`
and `x1: u32`. -/
theorem as_optional_classification_witness :
    fieldReqBool.as_optional = none
    ∧ fieldX2.as_optional = some tyU32
    ∧ fieldX3.as_optional = some fieldX3.ty
    ∧ fieldX1.as_optional = none :=
  ⟨(as_optional_classification fieldReqBool).1 rfl,
    (as_optional_classification fieldX2).2.1 rfl tyU32 rfl,
    (as_optional_classification fieldX3).2.2.1 rfl rfl (Or.inr rfl),
    (as_optional_classification fieldX1).2.2.2 rfl rfl rfl rfl⟩

/-- C2: the three typestate artifacts of a member are: the unset marker is the
optional-slot marker over the representative type when the member is optional,
else the required-slot marker over the declared type; the set parameter type
is the optional wrapper over the representative type when optional, else the
declared type verbatim; and the set marker is the set-slot marker over the set
parameter type. -/
theorem typestate_artifacts (f : Field) :
    (∀ r, f.as_optional = some r →
        f.unset_state_type = { marker := .optionalMarker, param := r }
        ∧ f.set_state_type_param = Ty.option r)
    ∧ (f.as_optional = none →
        f.unset_state_type = { marker := .requiredMarker, param := f.ty }
        ∧ f.set_state_type_param = f.ty)
    ∧ f.set_state_type = { marker := .setMarker, param := f.set_state_type_param } := by
  refine ⟨fun r hr => ?_, fun hn => ?_, rfl⟩
  · constructor <;> simp [Field.unset_state_type, Field.set_state_type_param, hr]
  · constructor <;> simp [Field.unset_state_type, Field.set_state_type_param, hn]

/-- Witness for C2: the artifact equations evaluated at the optional member
`x2: Option<u32>` and the required member `x1: u32`. -/
theorem typestate_artifacts_witness :
    (fieldX2.unset_state_type = { marker := .optionalMarker, param := tyU32 }
      ∧ fieldX2.set_state_type_param = Ty.option tyU32)
    ∧ (fieldX1.unset_state_type = { marker := .requiredMarker, param := fieldX1.ty }
      ∧ fieldX1.set_state_type_param = fieldX1.ty) :=
  ⟨(typestate_artifacts fieldX2).1 tyU32 rfl, (typestate_artifacts fieldX1).2.1 rfl⟩

/-- C7: the strict-boolean primitive maps a bare word to `true` and an
explicit `= false` to `false`; an explicit `= true` is rejected with the
diagnostic telling the user to remove the `= true` part; and no other surface
form (list, or a non-boolean value) is accepted. -/
theorem strict_bool_contract :
    StrictBool.from_word = .ok { value := true }
    ∧ StrictBool.from_bool false = .ok { value := false }
    ∧ StrictBool.from_bool true = .error { msg := redundantTrueMsg, span := none }
    ∧ (∀ s, StrictBool.from_meta (Meta.path s) = .ok { value := true })
    ∧ (∀ s, StrictBool.from_meta (Meta.nameValue s (.litBool false)) = .ok { value := false })
    ∧ (∀ s, StrictBool.from_meta (Meta.nameValue s (.litBool true))
        = .error { msg := redundantTrueMsg, span := some s })
    ∧ (∀ s items, StrictBool.from_meta (Meta.list s items)
        = .error { msg := unsupportedFormatMsg "list", span := some s })
    ∧ (∀ s name, StrictBool.from_meta (Meta.nameValue s (.ident name))
        = .error { msg := unexpectedTypeMsg, span := some s })
    ∧ (∀ s t, StrictBool.from_meta (Meta.nameValue s (.otherExpr t))
        = .error { msg := unexpectedTypeMsg, span := some s }) :=
  ⟨rfl, rfl, rfl, fun _ => rfl, fun _ => rfl, fun _ => rfl, fun _ _ => rfl,
    fun _ _ => rfl, fun _ _ => rfl⟩

/-- C8: parsing the `default` annotation yields an absent inner expression at
the meta's span for the bare path form, the present inner expression at the
name-value node's span for the value-assignment form, and an
unsupported-format error for the list form. -/
theorem parse_optional_expression_spec :
    (∀ s, parse_optional_expression (Meta.path s) = .ok { value := none, span := s })
    ∧ (∀ s v, parse_optional_expression (Meta.nameValue s v)
        = .ok { value := some v, span := s })
    ∧ (∀ s items, parse_optional_expression (Meta.list s items)
        = .error { msg := unsupportedFormatMsg "list", span := some s }) :=
  ⟨fun _ => rfl, fun _ _ => rfl, fun _ _ => rfl⟩

/-- C9: the name/visibility override parser dispatches on surface shape — a
single value-assignment form yields a record with only the name override set,
and any other form is handed to the full structured parser, in which the name
and visibility overrides are independently present or absent (all four
combinations realised below). -/
theorem item_params_dispatch :
    (∀ s name, ItemParams.from_meta (Meta.nameValue s (.ident name))
        = .ok { name := some name, vis := none })
    ∧ (∀ s items, ItemParams.from_meta (Meta.list s items)
        = (ItemParamsFull.from_meta (Meta.list s items)).map fun full =>
            { name := full.name, vis := full.vis })
    ∧ (∀ s, ItemParams.from_meta (Meta.list s []) = .ok { name := none, vis := none })
    ∧ (∀ s n, ItemParams.from_meta (Meta.list s [MetaItem.nameItem n])
        = .ok { name := some n, vis := none })
    ∧ (∀ s v, ItemParams.from_meta (Meta.list s [MetaItem.visItem v])
        = .ok { name := none, vis := some v })
    ∧ (∀ s n v, ItemParams.from_meta (Meta.list s [MetaItem.nameItem n, MetaItem.visItem v])
        = .ok { name := some n, vis := some v }) :=
  ⟨fun _ _ => rfl, fun _ _ => rfl, fun _ => rfl, fun _ _ => rfl, fun _ _ => rfl,
    fun _ _ _ => rfl⟩

/-- C10: member validation is fail-fast and runs its checks in the fixed
order: doc self-reference first, then default-redundancy on the declared type,
then `required`-on-optional-wrapper, then `required`-on-non-boolean, then the
`required`/`default` conflict; `validate` returns exactly the first failing
check's diagnostic, and succeeds when every check passes. -/
theorem validate_ordered_fail_fast (f : Field) :
    f.validate =
      match firstSome [docsCheck f, redundantDefaultCheck f, requiredOnOptionCheck f,
          requiredNonBoolCheck f, requiredDefaultConflictCheck f] with
      | some e => Except.error e
      | none => Except.ok () := by
  rcases f with ⟨origin, ident, docs, ty, st, into, dflt, req⟩
  simp only [Field.validate, docsCheck, redundantDefaultCheck, requiredOnOptionCheck,
    requiredNonBoolCheck, requiredDefaultConflictCheck, reject_self_references_in_docs]
  cases hdoc : docs.find? (fun d => d.selfRef) <;>
    cases dflt <;> cases req <;> cases ty <;>
      simp [hdoc, firstSome, Ty.is_option, Ty.is_bool, Bind.bind, Except.bind]

/-- C3 counterexample: for the member `flag: bool` with `required` (span 3)
and `default = true` (span 7), validation produces the redundant-`default`
diagnostic anchored at the `default` annotation — not the
`required`/`default`-conflict diagnostic anchored at the `required`
annotation, which differs in both message and span. -/
theorem required_default_bool_counterexample :
    fieldFlagReqDefault.validate
        = Except.error { msg := redundantDefaultMsg "bool", span := some 7 }
    ∧ fieldFlagReqDefault.validate
        ≠ Except.error { msg := requiredDefaultConflictMsg, span := some 3 }
    ∧ redundantDefaultMsg "bool" ≠ requiredDefaultConflictMsg := by
  refine ⟨rfl, ?_, ?_⟩ <;> decide

/-- C3 amended: for a member of boolean declared type carrying both `required`
and a `default` annotation (and docs passing the self-reference check),
construction fails with the redundant-`default` diagnostic for `bool`,
anchored at the `default` annotation's span; the conflict check never fires
because the redundancy check precedes it. -/
theorem required_default_bool_amended (f : Field) (d : SpannedValue (Option Expr))
    (hdocs : f.docs.find? (fun a => a.selfRef) = none)
    (hty : f.ty = Ty.bool)
    (hreq : f.params.required.isSome = true)
    (hdef : f.params.default = some d) :
    f.validate = Except.error { msg := redundantDefaultMsg "bool", span := some d.span } := by
  simp [Field.validate, reject_self_references_in_docs, hdocs, hdef, hty,
    Ty.is_option, Ty.is_bool, Bind.bind, Except.bind]

/-- Witness for the amended C3: the amended statement applied to the concrete
member `flag: bool` with `required` at span 3 and `default = true` at span 7. -/
theorem required_default_bool_amended_witness :
    fieldFlagReqDefault.validate
      = Except.error { msg := redundantDefaultMsg "bool", span := some 7 } :=
  required_default_bool_amended fieldFlagReqDefault
    { value := some (.litBool true), span := 7 } rfl rfl rfl rfl

/-- C4 counterexample: for the member `x2: Option<u32>` the unset marker is
the optional-slot marker over `u32` while the set marker is the set-slot
marker over `Option<u32>` — the marker head is swapped, but the type parameter
is not identical, so the two artifacts do not differ in exactly one structural
position. -/
theorem marker_swap_counterexample :
    fieldX2.unset_state_type.marker ≠ fieldX2.set_state_type.marker
    ∧ fieldX2.unset_state_type.param ≠ fieldX2.set_state_type.param := by
  refine ⟨?_, ?_⟩ <;> decide

/-- C4 amended: the unset and set markers always differ in the marker head;
for a required member the type parameter is identical (required-slot over the
declared type versus set-slot over the declared type), while for an optional
member with representative type `r` the unset marker's parameter is `r` and
the set marker's parameter is additionally wrapped, `Option<r>`. -/
theorem marker_swap_amended (f : Field) :
    f.unset_state_type.marker ≠ f.set_state_type.marker
    ∧ (f.as_optional = none → f.unset_state_type.param = f.set_state_type.param
        ∧ f.unset_state_type.marker = Marker.requiredMarker
        ∧ f.set_state_type.marker = Marker.setMarker)
    ∧ (∀ r, f.as_optional = some r →
        f.unset_state_type = { marker := .optionalMarker, param := r }
        ∧ f.set_state_type = { marker := .setMarker, param := Ty.option r }) := by
  refine ⟨?_, fun hn => ?_, fun r hr => ?_⟩
  · cases h : f.as_optional <;>
      simp [Field.unset_state_type, Field.set_state_type, h]
  · simp [Field.unset_state_type, Field.set_state_type, Field.set_state_type_param, hn]
  · simp [Field.unset_state_type, Field.set_state_type, Field.set_state_type_param, hr]

/-- Witness for the amended C4: both classification outcomes evaluated at the
concrete members `x1: u32` (required) and `x2: Option<u32>` (optional). -/
theorem marker_swap_amended_witness :
    (fieldX1.unset_state_type.param = fieldX1.set_state_type.param
      ∧ fieldX1.unset_state_type.marker = Marker.requiredMarker
      ∧ fieldX1.set_state_type.marker = Marker.setMarker)
    ∧ fieldX2.unset_state_type = { marker := .optionalMarker, param := tyU32 }
    ∧ fieldX2.set_state_type = { marker := .setMarker, param := Ty.option tyU32 } :=
  ⟨(marker_swap_amended fieldX1).2.1 rfl,
    ((marker_swap_amended fieldX2).2.2 tyU32 rfl).1,
    ((marker_swap_amended fieldX2).2.2 tyU32 rfl).2⟩

/-- C5 counterexample: for the member `n: Option<u32>` carrying `required`
(span 3) and a bare `default` (span 7), validation produces the
redundant-`default` diagnostic anchored at the `default` annotation — not the
`required`-on-`Option` diagnostic anchored at the `required` annotation. -/
theorem required_on_option_counterexample :
    fieldOptReqDefault.params.required.isSome = true
    ∧ fieldOptReqDefault.ty.is_option = true
    ∧ fieldOptReqDefault.validate
        = Except.error { msg := redundantDefaultMsg "Option", span := some 7 }
    ∧ fieldOptReqDefault.validate
        ≠ Except.error { msg := requiredOnOptionMsg, span := some 3 }
    ∧ redundantDefaultMsg "Option" ≠ requiredOnOptionMsg := by
  refine ⟨rfl, rfl, rfl, ?_, ?_⟩ <;> decide

/-- C5 amended: for a member carrying `required` whose docs pass the
self-reference check, validation rejects it with a fatal diagnostic anchored
at the `required` annotation's span unless the declared type is boolean: the
`required`-on-optional-wrapper diagnostic when the declared type is the
optional wrapper and no `default` annotation is present (a `default` makes the
earlier redundancy check fire instead), and the `required`-on-non-boolean
diagnostic when the type is neither boolean nor the optional wrapper. -/
theorem required_type_check_amended (f : Field) (r : Flag)
    (hdocs : f.docs.find? (fun a => a.selfRef) = none)
    (hreq : f.params.required = some r) :
    (f.ty.is_option = true → f.params.default = none →
        f.validate = Except.error { msg := requiredOnOptionMsg, span := some r.span })
    ∧ (f.ty.is_option = false → f.ty.is_bool = false →
        f.validate = Except.error { msg := requiredNonBoolMsg, span := some r.span }) := by
  constructor
  · intro hopt hdef
    simp [Field.validate, reject_self_references_in_docs, hdocs, hdef, hreq, hopt,
      Bind.bind, Except.bind]
  · intro hopt hbool
    cases hdef : f.params.default <;>
      simp [Field.validate, reject_self_references_in_docs, hdocs, hdef, hreq, hopt, hbool,
        Bind.bind, Except.bind]

/-- Witness for the amended C5: the two rejection branches evaluated at the
concrete members `n: Option<u32> required` and `s: String required`, both with
`required` at span 3. -/
theorem required_type_check_amended_witness :
    fieldOptReq.validate = Except.error { msg := requiredOnOptionMsg, span := some 3 }
    ∧ fieldStrReq.validate = Except.error { msg := requiredNonBoolMsg, span := some 3 } :=
  ⟨(required_type_check_amended fieldOptReq { span := 3 } rfl rfl).1 rfl rfl,
    (required_type_check_amended fieldStrReq { span := 3 } rfl rfl).2 rfl rfl⟩

/-- C6 counterexample: for the member `n: Option<u32>` carrying a bare
`default` (span 7) together with a doc fragment (span 1) containing a
self-referential link, validation fails with the self-referential-doc
diagnostic — not the redundant-`default` diagnostic anchored at the `default`
annotation. -/
theorem redundant_default_counterexample :
    fieldOptDefaultSelfDoc.params.default.isSome = true
    ∧ fieldOptDefaultSelfDoc.ty.is_option = true
    ∧ fieldOptDefaultSelfDoc.validate
        = Except.error { msg := selfReferentialDocMsg, span := some 1 }
    ∧ fieldOptDefaultSelfDoc.validate
        ≠ Except.error { msg := redundantDefaultMsg "Option", span := some 7 }
    ∧ selfReferentialDocMsg ≠ redundantDefaultMsg "Option" := by
  refine ⟨rfl, rfl, rfl, ?_, ?_⟩ <;> decide

/-- C6 amended: for a member carrying a `default` annotation whose docs pass
the self-reference check, validation fails with the redundant-`default`
diagnostic anchored at the `default` annotation's span and naming the
offending type (`Option` for the optional wrapper, `bool` for the boolean
type); for any other declared type the `default` annotation alone (no
`required` flag) produces no diagnostic. -/
theorem redundant_default_amended (f : Field) (d : SpannedValue (Option Expr))
    (hdocs : f.docs.find? (fun a => a.selfRef) = none)
    (hdef : f.params.default = some d) :
    (f.ty.is_option = true →
        f.validate = Except.error { msg := redundantDefaultMsg "Option", span := some d.span })
    ∧ (f.ty.is_option = false → f.ty.is_bool = true →
        f.validate = Except.error { msg := redundantDefaultMsg "bool", span := some d.span })
    ∧ (f.ty.is_option = false → f.ty.is_bool = false → f.params.required = none →
        f.validate = Except.ok ()) := by
  refine ⟨fun hopt => ?_, fun hopt hbool => ?_, fun hopt hbool hreq => ?_⟩ <;>
    simp [Field.validate, reject_self_references_in_docs, hdocs, hdef, hopt, Bind.bind,
      Except.bind, *]

/-- Witness for the amended C6: all three branches evaluated at the concrete
members `n: Option<u32> default` (span 7), `b: bool default` (span 7) and
`x3: u32 default = 2 + 2` (span 5). -/
theorem redundant_default_amended_witness :
    fieldOptDefault.validate
      = Except.error { msg := redundantDefaultMsg "Option", span := some 7 }
    ∧ fieldBoolDefault.validate
      = Except.error { msg := redundantDefaultMsg "bool", span := some 7 }
    ∧ fieldX3.validate = Except.ok () :=
  ⟨(redundant_default_amended fieldOptDefault { value := none, span := 7 } rfl rfl).1 rfl,
    (redundant_default_amended fieldBoolDefault { value := none, span := 7 } rfl rfl).2.1
      rfl rfl,
    (redundant_default_amended fieldX3 { value := some (.otherExpr "2 + 2"), span := 5 }
      rfl rfl).2.2 rfl rfl rfl⟩

end Bon
